import Mathlib

/-
Verification of the gr-osmosdr source adapters:
  * the AirspyHF streaming bridge (airspyhf_source_c: rx callback, work, stop,
    parameter setters), and
  * the bladeRF device cache and sample-rate plumbing (bladerf_common).

The C++ code is shallowly embedded as pure Lean functions over explicit state
records.  Conventions used throughout:
  * C `double` values are modelled as exact rationals (ℚ); the arithmetic the
    code performs on them (negation, division by 6, comparison with small
    constants) is exact in IEEE double at every input used in a theorem below,
    so the rational model agrees with the machine semantics there.
  * pointers are modelled by identity: the `_stream_buff` slot is an
    `Option Nat` holding the identity of the offered consumer buffer, `none`
    standing for the null pointer.
  * each call into libairspyhf / libbladeRF that changes hardware state is
    recorded in an explicit transaction log, and each `memcpy` into a consumer
    buffer is recorded as a `(buffer, sampleCount)` pair, so that "no hardware
    transaction happens" and "the buffer is filled with exactly N samples" are
    propositions about the state.
  * the C++ conversion of a nonnegative out-of-range double to `uint8_t` is
    modelled by reduction mod 2^8 (the behaviour of the usual targets; the
    standard leaves it undefined).  No theorem below depends on the choice for
    values that are in range.
  * the blocking waits of `work` and of the rx callback are modelled by
    splitting each function at its condition-variable wait: the code before
    the wait, the wait guard itself, and the code that runs once the guard
    has been re-checked are separate functions, and interleavings of the two
    threads (which run under the single `_stream_mutex`) are action traces
    folded over the state.
-/

namespace Osmosdr

/-- A libairspyhf call that changes hardware state (queries are not logged). -/
inductive HwCall where
  | setHfAtt (v : Nat)
  | setHfLna (v : Nat)
  | setHfAgc (b : Bool)
  | setSamplerate (r : Nat)
  | setFreq (f : ℚ)
  | stopCmd
  | startCmd
  deriving DecidableEq, Repr

/-- One `airspyhf_transfer_t` as seen by the rx callback: the identity of the
sample block the driver delivers and the `dropped_samples` count it reports. -/
structure Transfer where
  samples : Nat
  dropped_samples : Nat
  deriving DecidableEq, Repr

/-- The state of one `airspyhf_source_c` instance together with the hardware
state observable through its device handle. -/
structure AirspyState where
  /-- result of `airspyhf_is_streaming(_dev)` -/
  streaming : Bool
  /-- `_airspyhf_output_size` (fixed at open time, never written afterwards) -/
  outputSize : Nat
  /-- `_stream_buff`: identity of the consumer buffer in the slot, `none` = null -/
  streamBuff : Option Nat
  /-- `_dropped_samples` -/
  dropped : Nat
  /-- `_att` (uint8_t) -/
  att : Nat
  /-- `_lna` (uint8_t) -/
  lna : Nat
  /-- `_agc` -/
  agc : Bool
  /-- `_sample_rate` (the cached double) -/
  sampleRate : ℚ
  /-- the sample rate most recently programmed into the device by
  `airspyhf_set_samplerate` (which receives `(uint32_t) rate`) -/
  hwSampleRate : Nat
  /-- `_center_freq` -/
  centerFreq : ℚ
  /-- number of `AIRSPYHF_WARNING` lines emitted -/
  warnings : Nat
  /-- number of `_stream_cond.notify_one()` calls -/
  notifyStream : Nat
  /-- number of `_callback_done_cond.notify_one()` calls -/
  notifyDone : Nat
  /-- log of state-changing libairspyhf calls -/
  hwCalls : List HwCall
  /-- log of `memcpy`s into consumer buffers: (buffer identity, samples copied) -/
  writes : List (Nat × Nat)
  deriving DecidableEq, Repr

namespace airspyhf_source_c

/-- `(uint32_t) x` for a C double `x`, modelled on ℚ: truncation toward zero
(we only apply it to nonnegative rates, where truncation is `Int.floor`)
reduced mod 2^32. -/
def cppToUInt32 (q : ℚ) : Nat :=
  (Int.floor q).toNat % 2 ^ 32

/-- `std::round`: nearest integer, halves away from zero. -/
def cppRound (x : ℚ) : ℤ :=
  if 0 ≤ x then Int.floor (x + 1 / 2) else -Int.floor (-x + 1 / 2)

/-- `_airspyhf_lna_db_to_flag`: `db >= 3.0 ? 1 : 0`. -/
def lna_db_to_flag (db : ℚ) : Nat :=
  if 3 ≤ db then 1 else 0

/-- `_airspyhf_lna_flag_to_db`: `flag ? 6.0 : 0.0`. -/
def lna_flag_to_db (flag : Nat) : ℚ :=
  if flag ≠ 0 then 6 else 0

/-- `_airspyhf_att_db_to_value`: `(uint8_t) std::round(-db/6.0)`.  The result
of `std::round` is converted to `uint8_t`, modelled as reduction mod 2^8. -/
def att_db_to_value (db : ℚ) : Nat :=
  (cppRound (-db / 6) % 2 ^ 8).toNat

/-- `_airspyhf_att_value_to_db`: `value * -6.0`. -/
def att_value_to_db (value : Nat) : ℚ :=
  (value : ℚ) * (-6)

/-- The guard of the rx callback's wait loop:
`while (_stream_buff == nullptr && airspyhf_is_streaming(_dev)) wait;`. -/
def callbackWaitHolds (s : AirspyState) : Bool :=
  s.streamBuff.isNone && s.streaming

/-- Body of `airspyhf_source_c::airspyhf_rx_callback` once its wait loop has
released it (it runs under `_stream_mutex`): warn if the transfer reports
dropped samples, memcpy `_airspyhf_output_size` samples into `_stream_buff`
if a buffer is present, null the slot, and notify `_callback_done_cond`.
Note that `_dropped_samples` is never touched. -/
def rx_callback (t : Transfer) (s : AirspyState) : AirspyState :=
  let s1 := if t.dropped_samples ≠ 0 then { s with warnings := s.warnings + 1 } else s
  let s2 :=
    match s1.streamBuff with
    | some b => { s1 with writes := s1.writes ++ [(b, s1.outputSize)] }
    | none => s1
  { s2 with streamBuff := none, notifyDone := s2.notifyDone + 1 }

/-- Result of the entry portion of `airspyhf_source_c::work`. -/
inductive WorkEntry where
  /-- `return WORK_DONE` -/
  | workDone
  /-- `return 0` (ask the scheduler to call again with more room) -/
  | retryZero
  /-- the buffer was placed in the slot and the consumer entered the
  `_callback_done_cond` wait -/
  | waiting
  deriving DecidableEq, Repr

/-- GNU Radio's `WORK_DONE` return value. -/
def WORK_DONE : ℤ := -1

/-- Entry portion of `airspyhf_source_c::work`, up to the point where it either
returns early or parks on `_callback_done_cond`.  `noutput_items` is a C `int`
compared against the `uint32_t` `_airspyhf_output_size`, so the comparison
converts it to `uint32_t` (two's-complement reduction mod 2^32).  `buf` is the
identity of `output_items[0]`. -/
def work_enter (noutput_items : ℤ) (buf : Nat) (s : AirspyState) :
    AirspyState × WorkEntry :=
  if s.streaming = false then
    (s, WorkEntry.workDone)
  else if noutput_items % 2 ^ 32 < (s.outputSize : ℤ) then
    (s, WorkEntry.retryZero)
  else
    ({ s with streamBuff := some buf, notifyStream := s.notifyStream + 1 },
     WorkEntry.waiting)

/-- The guard of `work`'s wait loop:
`while ((_stream_buff != nullptr) && airspyhf_is_streaming(_dev)) wait;`. -/
def workWaitHolds (s : AirspyState) : Bool :=
  s.streamBuff.isSome && s.streaming

/-- The re-check a parked `work` performs when it wakes: if the guard still
holds it keeps waiting (`none`); otherwise the wait loop exits and `work`
returns `_airspyhf_output_size`, whether or not the buffer was filled. -/
def work_resume (s : AirspyState) : Option ℤ :=
  if workWaitHolds s then none else some (s.outputSize : ℤ)

/-- `airspyhf_source_c::stop`: takes `_stream_mutex` and calls
`airspyhf_stop(_dev)`.  It does not touch `_stream_buff` and does not notify
either condition variable. -/
def stop (s : AirspyState) : AirspyState :=
  { s with streaming := false, hwCalls := s.hwCalls ++ [HwCall.stopCmd] }

/-- `airspyhf_source_c::start`: calls `airspyhf_start`, arming delivery. -/
def start (s : AirspyState) : AirspyState :=
  { s with streaming := true, hwCalls := s.hwCalls ++ [HwCall.startCmd] }

/-- `airspyhf_source_c::set_sample_rate`: calls
`airspyhf_set_samplerate(_dev, (uint32_t) rate)` unconditionally; on success
caches the raw `rate` double in `_sample_rate`.  Returns `_sample_rate`.
`hwOk` is the success/failure of the external libairspyhf call. -/
def set_sample_rate (rate : ℚ) (hwOk : Bool) (s : AirspyState) :
    AirspyState × ℚ :=
  let s1 := { s with hwCalls := s.hwCalls ++ [HwCall.setSamplerate (cppToUInt32 rate)] }
  if hwOk then
    let s2 := { s1 with hwSampleRate := cppToUInt32 rate, sampleRate := rate }
    (s2, s2.sampleRate)
  else
    (s1, s1.sampleRate)

/-- `airspyhf_source_c::get_sample_rate`: returns the cached `_sample_rate`. -/
def get_sample_rate (s : AirspyState) : ℚ :=
  s.sampleRate

/-- `airspyhf_source_c::set_center_freq`: calls `airspyhf_set_freq`
unconditionally; on success caches the frequency, on failure warns.
Returns `_center_freq`. -/
def set_center_freq (freq : ℚ) (hwOk : Bool) (s : AirspyState) :
    AirspyState × ℚ :=
  let s1 := { s with hwCalls := s.hwCalls ++ [HwCall.setFreq freq] }
  if hwOk then
    let s2 := { s1 with centerFreq := freq }
    (s2, s2.centerFreq)
  else
    ({ s1 with warnings := s1.warnings + 1 }, s1.centerFreq)

/-- `airspyhf_source_c::set_gain(double, const std::string &, size_t)`:
dispatch on the stage name; for "ATT"/"LNA" convert the dB request, program
the hardware only when the converted value differs from the cached one, and
return the dB rendering of the cached value; for an unknown name warn and
return `0.0`. -/
def set_gain (gain : ℚ) (name : String) (s : AirspyState) : AirspyState × ℚ :=
  if name = "ATT" then
    let a := att_db_to_value gain
    let s1 :=
      if s.att ≠ a then
        { s with att := a, hwCalls := s.hwCalls ++ [HwCall.setHfAtt a] }
      else s
    (s1, att_value_to_db s1.att)
  else if name = "LNA" then
    let l := lna_db_to_flag gain
    let s1 :=
      if s.lna ≠ l then
        { s with lna := l, hwCalls := s.hwCalls ++ [HwCall.setHfLna l] }
      else s
    (s1, lna_flag_to_db s1.lna)
  else
    ({ s with warnings := s.warnings + 1 }, 0)

/-- `airspyhf_source_c::get_gain(const std::string &, size_t)`. -/
def get_gain (name : String) (s : AirspyState) : AirspyState × ℚ :=
  if name = "ATT" then
    (s, att_value_to_db s.att)
  else if name = "LNA" then
    (s, lna_flag_to_db s.lna)
  else
    ({ s with warnings := s.warnings + 1 }, 0)

/-- `airspyhf_source_c::set_gain_mode`: programs `airspyhf_set_hf_agc` only
when the request differs from the cached `_agc`; returns `_agc`. -/
def set_gain_mode (automatic : Bool) (s : AirspyState) : AirspyState × Bool :=
  if s.agc ≠ automatic then
    let s1 := { s with agc := automatic, hwCalls := s.hwCalls ++ [HwCall.setHfAgc automatic] }
    (s1, s1.agc)
  else
    (s, s.agc)

/-! ### Interleaving model of the streaming bridge

Both threads run their bridge code under `_stream_mutex`, so an execution is a
sequence of atomic critical sections.  A `BridgeAct` is one such section. -/

/-- One critical section of the bridge. -/
inductive BridgeAct where
  /-- the consumer runs the entry portion of `work` -/
  | offer (noutput_items : ℤ) (buf : Nat)
  /-- the driver thread runs the rx callback body for transfer `t` -/
  | deliver (t : Transfer)
  /-- some thread runs `stop()` -/
  | stopAct
  /-- some thread runs `start()` -/
  | startAct
  deriving DecidableEq, Repr

/-- Effect of one critical section on the bridge state. -/
def stepAct (a : BridgeAct) (s : AirspyState) : AirspyState :=
  match a with
  | BridgeAct.offer n b => (work_enter n b s).1
  | BridgeAct.deliver t => rx_callback t s
  | BridgeAct.stopAct => stop s
  | BridgeAct.startAct => start s

/-- Run a trace of critical sections. -/
def run (acts : List BridgeAct) (s : AirspyState) : AirspyState :=
  acts.foldl (fun t a => stepAct a t) s

/-- The buffers offered by the consumer along a trace, in order. -/
def offers (acts : List BridgeAct) : List Nat :=
  acts.filterMap fun a =>
    match a with
    | BridgeAct.offer _ b => some b
    | _ => none

/-- The buffers that have been memcpy'd into, in order. -/
def wroteBufs (s : AirspyState) : List Nat :=
  s.writes.map Prod.fst

/-- The slot/write discipline maintained by the bridge relative to the set
`off` of buffers the consumer has offered so far: every memcpy so far copied
exactly `_airspyhf_output_size` samples into an offered buffer, no buffer was
memcpy'd twice, and the buffer currently in the slot (if any) is an offered
buffer that has not been written yet. -/
def slotInv (off : List Nat) (s : AirspyState) : Prop :=
  (∀ w ∈ s.writes, w.2 = s.outputSize) ∧
  (∀ w ∈ s.writes, w.1 ∈ off) ∧
  (wroteBufs s).Nodup ∧
  (∀ b, s.streamBuff = some b → b ∈ off ∧ b ∉ wroteBufs s)

/-- A concrete bridge trace used to evaluate theorems: two buffer offers with
interleaved deliveries (the second reporting dropped samples) and a stop. -/
def exActs : List BridgeAct :=
  [BridgeAct.offer 8 1, BridgeAct.deliver ⟨0, 0⟩, BridgeAct.offer 8 2,
   BridgeAct.stopAct, BridgeAct.deliver ⟨1, 5⟩]

/-- A concrete streaming bridge state used to evaluate theorems: armed,
native block size 4, empty slot, freshly started. -/
def exBase : AirspyState :=
  { streaming := true
    outputSize := 4
    streamBuff := none
    dropped := 0
    att := 0
    lna := 1
    agc := true
    sampleRate := 768000
    hwSampleRate := 768000
    centerFreq := 14000000
    warnings := 0
    notifyStream := 0
    notifyDone := 0
    hwCalls := []
    writes := [] }

end airspyhf_source_c

/-! ### bladeRF: device handle cache and sample-rate plumbing -/

namespace bladerf_common

/-- The process-wide device cache `bladerf_common::_devs` (entries are weakly
held; an entry is pruned by `close` at the moment its device is released, so a
reachable cache holds the identities of currently live devices) together with
a count of physical `bladerf_open_with_devinfo` calls. -/
structure DevCache where
  /-- devinfo identity of each live cached device, in insertion order -/
  devs : List Nat
  /-- number of physical opens performed so far -/
  physOpens : Nat
  deriving DecidableEq, Repr

/-- Outcome of `bladerf_common::open`. -/
inductive OpenResult where
  /-- the cached shared handle for device `d` was returned -/
  | cached (d : Nat)
  /-- a fresh physical connection to device `d` was opened and cached -/
  | fresh (d : Nat)
  deriving DecidableEq, Repr

/-- `bladerf_common::get_cached_device`: walk `_devs` and return the first
device whose actual devinfo (read back with `bladerf_get_devinfo`) matches the
requested devinfo under `bladerf_devinfo_matches`.  The external matching
predicate is a parameter `matchesFn requested actual`. -/
def get_cached_device (matchesFn : Nat → Nat → Bool) (devinfo : Nat)
    (c : DevCache) : Option Nat :=
  c.devs.find? fun d => matchesFn devinfo d

/-- `bladerf_common::open` (under `_devs_mutex`): parse the identifier into a
devinfo, return the cached handle if one matches, otherwise open a fresh
physical connection (`newId` is the identity of the unit the external
`bladerf_open_with_devinfo` selects) and append it to the cache. -/
def openDevice (matchesFn : Nat → Nat → Bool) (devinfo : Nat) (newId : Nat)
    (c : DevCache) : DevCache × OpenResult :=
  match get_cached_device matchesFn devinfo c with
  | some d => (c, OpenResult.cached d)
  | none =>
      ({ devs := c.devs ++ [newId], physOpens := c.physOpens + 1 },
       OpenResult.fresh newId)

/-- Run a sequence of `open` requests where the external driver resolves each
request `r` to the unit with identity `r` itself and matching is identity
(the serial/instance identifies the physical unit). -/
def runOpens (reqs : List Nat) (c : DevCache) : DevCache :=
  reqs.foldl (fun t r => (openDevice (fun a b => a == b) r r t).1) c

/-- A bladeRF rational sample rate (`struct bladerf_rational_rate`). -/
structure RationalRate where
  integer : Nat
  num : Nat
  den : Nat
  deriving DecidableEq, Repr

/-- The real value of a rational rate: `integer + num / (double) den`. -/
def rrValue (r : RationalRate) : ℚ :=
  (r.integer : ℚ) + (r.num : ℚ) / (r.den : ℚ)

/-- The request `bladerf_common::set_sample_rate` builds from the double
`rate`: `integer = (uint32_t) rate`, `den = 10000`,
`num = (rate - integer) * den` (a nonnegative sub-unit value truncated to
`uint64_t`). -/
def requestRational (rate : ℚ) : RationalRate :=
  let i := airspyhf_source_c.cppToUInt32 rate
  { integer := i, num := (Int.floor ((rate - (i : ℚ)) * 10000)).toNat, den := 10000 }

/-- Hardware-facing state of a bladeRF channel: the rational rate most
recently programmed, plus the log of rate requests sent to the driver. -/
structure BladerfState where
  hwRate : RationalRate
  rateRequests : List RationalRate
  deriving DecidableEq, Repr

/-- `bladerf_common::set_sample_rate`: build the rational request, hand it to
`bladerf_set_rational_sample_rate` (the external driver quantizes it to
`actual` and programs that), and return `actual.integer + actual.num /
(double) actual.den` — the rate actually programmed, not the request. -/
def set_sample_rate (rate : ℚ) (actual : RationalRate) (s : BladerfState) :
    BladerfState × ℚ :=
  ({ hwRate := actual, rateRequests := s.rateRequests ++ [requestRational rate] },
   rrValue actual)

/-- `bladerf_common::get_sample_rate`: read the rational rate back from the
hardware and return its value. -/
def get_sample_rate (s : BladerfState) : ℚ :=
  rrValue s.hwRate

/-- Classes of libbladeRF status codes, distinguished exactly as
`bladerf_common::set_gain` dispatches on them: success (0),
`BLADERF_ERR_UNSUPPORTED`, or any other nonzero error code. -/
inductive BrfStatus where
  | ok
  | unsupported
  | otherError
  deriving DecidableEq, Repr

/-- `SYSTEM_GAIN_NAME`, the synthetic aggregate gain stage. -/
def SYSTEM_GAIN_NAME : String := "system"

/-- `static_cast<int>` of a C double: truncation toward zero (gain values are
small, so `int` overflow is not modelled). -/
def cppToInt (q : ℚ) : ℤ :=
  if 0 ≤ q then Int.floor q else Int.ceil q

/-- One driver gain-set transaction: `systemEntry = true` means
`bladerf_set_gain` was used (the "system" stage), otherwise
`bladerf_set_gain_stage` with the given stage name; `value` is the truncated
gain passed down. -/
structure BrfGainCall where
  systemEntry : Bool
  stage : String
  value : ℤ
  deriving DecidableEq, Repr

/-- Adapter-visible state around the bladeRF gain path: the log of driver
gain-set calls issued (the gets are queries and are not logged) and the
warning count (`BLADERF_WARNING` / `BLADERF_WARN_STATUS`). -/
structure BrfGainState where
  gainCalls : List BrfGainCall
  warnings : Nat
  deriving DecidableEq, Repr

/-- Outcome of a `bladerf_common` call that can throw
(`BLADERF_THROW_STATUS`): a normally returned double or a propagated
exception. -/
inductive GainOutcome where
  | value (v : ℚ)
  | thrown
  deriving DecidableEq, Repr

/-- `bladerf_common::get_gain(name, ch)`: issue the driver get — its status
`getSt` and, on success, the value `hwVal` it writes into `g` are the external
driver's behaviour; for a stage name the device does not know the driver
fails.  On failure `g` keeps its initialization 0 and a warning is logged
(`BLADERF_WARN_STATUS`, not a throw); returns `(double) g`. -/
def get_gain (getSt : BrfStatus) (hwVal : ℤ) (s : BrfGainState) :
    BrfGainState × ℚ :=
  let g : ℤ := if getSt = BrfStatus.ok then hwVal else 0
  let s1 :=
    if getSt ≠ BrfStatus.ok then { s with warnings := s.warnings + 1 } else s
  (s1, (g : ℚ))

/-- `bladerf_common::set_gain(gain, name, ch)`: dispatch to `bladerf_set_gain`
for the synthetic "system" stage, else to `bladerf_set_gain_stage` with the
given name — the driver call is issued unconditionally, its status `setSt`
being the external driver's verdict.  `BLADERF_ERR_UNSUPPORTED` is only
warned about; any other nonzero status throws (`BLADERF_THROW_STATUS`); on
the non-throwing paths the function returns `get_gain(name, ch)`. -/
def set_gain (gain : ℚ) (name : String) (setSt getSt : BrfStatus)
    (hwVal : ℤ) (s : BrfGainState) : BrfGainState × GainOutcome :=
  let s1 := { s with gainCalls := s.gainCalls ++
      [{ systemEntry := name == SYSTEM_GAIN_NAME, stage := name,
         value := cppToInt gain }] }
  match setSt with
  | BrfStatus.otherError => (s1, GainOutcome.thrown)
  | BrfStatus.unsupported =>
      let s2 := { s1 with warnings := s1.warnings + 1 }
      let r := get_gain getSt hwVal s2
      (r.1, GainOutcome.value r.2)
  | BrfStatus.ok =>
      let r := get_gain getSt hwVal s1
      (r.1, GainOutcome.value r.2)

end bladerf_common

end Osmosdr

namespace Osmosdr

namespace airspyhf_source_c

/-! ### Supporting lemmas about the bridge operations -/

theorem rx_callback_streamBuff (t : Transfer) (s : AirspyState) :
    (rx_callback t s).streamBuff = none := by
  unfold rx_callback
  by_cases hd : t.dropped_samples ≠ 0 <;> cases h : s.streamBuff <;> simp [hd, h]

theorem rx_callback_writes (t : Transfer) (s : AirspyState) :
    (rx_callback t s).writes =
      match s.streamBuff with
      | some b => s.writes ++ [(b, s.outputSize)]
      | none => s.writes := by
  unfold rx_callback
  by_cases hd : t.dropped_samples ≠ 0 <;> cases h : s.streamBuff <;> simp [hd, h]

theorem rx_callback_outputSize (t : Transfer) (s : AirspyState) :
    (rx_callback t s).outputSize = s.outputSize := by
  unfold rx_callback
  by_cases hd : t.dropped_samples ≠ 0 <;> cases h : s.streamBuff <;> simp [hd, h]

theorem rx_callback_dropped (t : Transfer) (s : AirspyState) :
    (rx_callback t s).dropped = s.dropped := by
  unfold rx_callback
  by_cases hd : t.dropped_samples ≠ 0 <;> cases h : s.streamBuff <;> simp [hd, h]

theorem rx_callback_notifyDone (t : Transfer) (s : AirspyState) :
    (rx_callback t s).notifyDone = s.notifyDone + 1 := by
  unfold rx_callback
  by_cases hd : t.dropped_samples ≠ 0 <;> cases h : s.streamBuff <;> simp [hd, h]

theorem rx_callback_warnings (t : Transfer) (s : AirspyState) :
    (rx_callback t s).warnings =
      if t.dropped_samples ≠ 0 then s.warnings + 1 else s.warnings := by
  unfold rx_callback
  by_cases hd : t.dropped_samples ≠ 0 <;> cases h : s.streamBuff <;> simp [hd, h]

theorem work_enter_fst_writes (n : ℤ) (b : Nat) (s : AirspyState) :
    (work_enter n b s).1.writes = s.writes := by
  unfold work_enter
  split <;> [skip; split] <;> simp

theorem work_enter_fst_outputSize (n : ℤ) (b : Nat) (s : AirspyState) :
    (work_enter n b s).1.outputSize = s.outputSize := by
  unfold work_enter
  split <;> [skip; split] <;> simp

theorem work_enter_fst_dropped (n : ℤ) (b : Nat) (s : AirspyState) :
    (work_enter n b s).1.dropped = s.dropped := by
  unfold work_enter
  split <;> [skip; split] <;> simp

theorem work_enter_fst_streamBuff (n : ℤ) (b : Nat) (s : AirspyState) :
    (work_enter n b s).1.streamBuff = s.streamBuff ∨
    (work_enter n b s).1.streamBuff = some b := by
  unfold work_enter
  split
  · exact Or.inl rfl
  · split
    · exact Or.inl rfl
    · exact Or.inr rfl

theorem stepAct_outputSize (a : BridgeAct) (s : AirspyState) :
    (stepAct a s).outputSize = s.outputSize := by
  cases a with
  | offer n b => exact work_enter_fst_outputSize n b s
  | deliver t => exact rx_callback_outputSize t s
  | stopAct => rfl
  | startAct => rfl

theorem stepAct_dropped (a : BridgeAct) (s : AirspyState) :
    (stepAct a s).dropped = s.dropped := by
  cases a with
  | offer n b => exact work_enter_fst_dropped n b s
  | deliver t => exact rx_callback_dropped t s
  | stopAct => rfl
  | startAct => rfl

theorem run_cons (a : BridgeAct) (acts : List BridgeAct) (s : AirspyState) :
    run (a :: acts) s = run acts (stepAct a s) := rfl

theorem run_dropped (acts : List BridgeAct) (s : AirspyState) :
    (run acts s).dropped = s.dropped := by
  induction acts generalizing s with
  | nil => rfl
  | cons a acts ih => rw [run_cons, ih, stepAct_dropped]

theorem run_outputSize (acts : List BridgeAct) (s : AirspyState) :
    (run acts s).outputSize = s.outputSize := by
  induction acts generalizing s with
  | nil => rfl
  | cons a acts ih => rw [run_cons, ih, stepAct_outputSize]

end airspyhf_source_c

end Osmosdr

namespace Osmosdr

namespace airspyhf_source_c

theorem slotInv_mono {off off2 : List Nat} {s : AirspyState}
    (hsub : off ⊆ off2) (h : slotInv off s) : slotInv off2 s := by
  obtain ⟨h1, h2, h3, h4⟩ := h
  refine ⟨h1, fun w hw => hsub (h2 w hw), h3, fun b hb => ?_⟩
  obtain ⟨hb1, hb2⟩ := h4 b hb
  exact ⟨hsub hb1, hb2⟩

theorem slotInv_offer {off : List Nat} {s : AirspyState} (n : ℤ) (b : Nat)
    (h : slotInv off s) (hb : b ∉ off) :
    slotInv (off ++ [b]) (work_enter n b s).1 := by
  obtain ⟨h1, h2, h3, h4⟩ := h
  have hsub : off ⊆ off ++ [b] := List.subset_append_left off [b]
  unfold work_enter
  split
  · exact slotInv_mono hsub ⟨h1, h2, h3, h4⟩
  split
  · exact slotInv_mono hsub ⟨h1, h2, h3, h4⟩
  refine ⟨h1, fun w hw => hsub (h2 w hw), h3, fun b2 hb2 => ?_⟩
  simp only [Option.some.injEq] at hb2
  subst hb2
  refine ⟨by simp, fun hmem => ?_⟩
  obtain ⟨w, hw, hweq⟩ := List.mem_map.mp hmem
  exact hb (hweq ▸ h2 w hw)

theorem slotInv_deliver {off : List Nat} {s : AirspyState} (t : Transfer)
    (h : slotInv off s) : slotInv off (rx_callback t s) := by
  obtain ⟨h1, h2, h3, h4⟩ := h
  have hw := rx_callback_writes t s
  have hsb := rx_callback_streamBuff t s
  have hos := rx_callback_outputSize t s
  cases hbuf : s.streamBuff with
  | none =>
      rw [hbuf] at hw
      refine ⟨fun w hwmem => ?_, fun w hwmem => ?_, ?_, fun b hb => ?_⟩
      · rw [hos]; exact h1 w (by rw [hw] at hwmem; exact hwmem)
      · exact h2 w (by rw [hw] at hwmem; exact hwmem)
      · unfold wroteBufs; rw [hw]; exact h3
      · rw [hsb] at hb; cases hb
  | some b0 =>
      rw [hbuf] at hw
      obtain ⟨hb1, hb2⟩ := h4 b0 hbuf
      refine ⟨fun w hwmem => ?_, fun w hwmem => ?_, ?_, fun b hb => ?_⟩
      · rw [hos]
        rw [hw, List.mem_append] at hwmem
        rcases hwmem with hwmem | hwmem
        · exact h1 w hwmem
        · simp only [List.mem_singleton] at hwmem; rw [hwmem]
      · rw [hw, List.mem_append] at hwmem
        rcases hwmem with hwmem | hwmem
        · exact h2 w hwmem
        · simp only [List.mem_singleton] at hwmem; rw [hwmem]; exact hb1
      · unfold wroteBufs
        rw [hw, List.map_append]
        simp only [List.map_cons, List.map_nil]
        rw [List.nodup_append]
        refine ⟨h3, List.nodup_singleton b0, ?_⟩
        intro a ha hmem
        simp only [List.mem_singleton] at hmem
        exact hb2 (hmem ▸ ha)
      · rw [hsb] at hb; cases hb

end airspyhf_source_c

end Osmosdr

namespace Osmosdr

namespace airspyhf_source_c

theorem slotInv_stop {off : List Nat} {s : AirspyState}
    (h : slotInv off s) : slotInv off (stop s) := by
  obtain ⟨h1, h2, h3, h4⟩ := h
  exact ⟨h1, h2, h3, h4⟩

theorem slotInv_start {off : List Nat} {s : AirspyState}
    (h : slotInv off s) : slotInv off (start s) := by
  obtain ⟨h1, h2, h3, h4⟩ := h
  exact ⟨h1, h2, h3, h4⟩

theorem offers_cons (a : BridgeAct) (acts : List BridgeAct) :
    offers (a :: acts) =
      (match a with
       | BridgeAct.offer _ b => [b]
       | _ => []) ++ offers acts := by
  cases a <;> simp [offers]

theorem slotInv_run (acts : List BridgeAct) (off : List Nat) (s : AirspyState)
    (h : slotInv off s) (hnd : (off ++ offers acts).Nodup) :
    slotInv (off ++ offers acts) (run acts s) := by
  induction acts generalizing off s with
  | nil => simpa [run, offers] using h
  | cons a rest ih =>
    rw [run_cons]
    cases a with
    | offer n b =>
        have hoff : offers (BridgeAct.offer n b :: rest) = b :: offers rest := by
          simp [offers]
        rw [hoff] at hnd ⊢
        rw [List.append_cons] at hnd ⊢
        have hb : b ∉ off := by
          have := hnd.sublist (List.sublist_append_left (off ++ [b]) (offers rest))
          intro hmem
          exact (List.nodup_append.mp this).2.2 hmem (List.mem_singleton_self b)
        exact ih (off ++ [b]) _ (slotInv_offer n b h hb) hnd
    | deliver t =>
        have hoff : offers (BridgeAct.deliver t :: rest) = offers rest := by
          simp [offers]
        rw [hoff] at hnd ⊢
        exact ih off _ (slotInv_deliver t h) hnd
    | stopAct =>
        have hoff : offers (BridgeAct.stopAct :: rest) = offers rest := by
          simp [offers]
        rw [hoff] at hnd ⊢
        exact ih off _ (slotInv_stop h) hnd
    | startAct =>
        have hoff : offers (BridgeAct.startAct :: rest) = offers rest := by
          simp [offers]
        rw [hoff] at hnd ⊢
        exact ih off _ (slotInv_start h) hnd

end airspyhf_source_c

end Osmosdr

namespace Osmosdr

namespace airspyhf_source_c

/-! ### Helper lemmas for the gain conversions and work entry -/

theorem cppRound_natCast (j : Nat) : cppRound (j : ℚ) = (j : ℤ) := by
  unfold cppRound
  rw [if_pos (by positivity)]
  rw [Int.floor_eq_iff]
  constructor
  · push_cast; linarith
  · push_cast; linarith

theorem att_db_to_value_of_bounds {g : ℚ} {k : Nat}
    (hk : cppRound (-g / 6) = (k : ℤ)) (hk255 : k ≤ 255) :
    att_db_to_value g = k := by
  unfold att_db_to_value
  rw [hk, Int.emod_eq_of_lt (by positivity) (by omega), Int.toNat_ofNat]

theorem set_gain_att_snd (g : ℚ) (s : AirspyState) :
    (set_gain g "ATT" s).2 = att_value_to_db (att_db_to_value g) := by
  by_cases h : s.att = att_db_to_value g
  · simp [set_gain, h]
  · simp [set_gain, h]

theorem set_gain_att_fst_att (g : ℚ) (s : AirspyState) :
    (set_gain g "ATT" s).1.att = att_db_to_value g := by
  by_cases h : s.att = att_db_to_value g
  · simp [set_gain, h]
  · simp [set_gain, h]

theorem get_gain_att_snd (s : AirspyState) :
    (get_gain "ATT" s).2 = att_value_to_db s.att := by
  simp [get_gain]

theorem work_enter_not_streaming {s : AirspyState} (h : s.streaming = false)
    (n : ℤ) (b : Nat) : work_enter n b s = (s, WorkEntry.workDone) := by
  simp [work_enter, h]

/-- Evaluation facts used to instantiate hypotheses at concrete inputs. -/
theorem cppRound_att_neg18 : cppRound (-(-18 : ℚ) / 6) = ((3 : Nat) : ℤ) := by
  norm_num [cppRound]

theorem att_db_to_value_zero : att_db_to_value 0 = exBase.att := by
  norm_num [att_db_to_value, cppRound, exBase]

theorem lna_db_to_flag_six : lna_db_to_flag 6 = exBase.lna := by
  norm_num [lna_db_to_flag, exBase]

end airspyhf_source_c

namespace bladerf_common

theorem runOpens_cons (r : Nat) (rest : List Nat) (c : DevCache) :
    runOpens (r :: rest) c =
      runOpens rest (openDevice (fun a b => a == b) r r c).1 := rfl

theorem runOpens_nodup (reqs : List Nat) (c : DevCache) (h : c.devs.Nodup) :
    (runOpens reqs c).devs.Nodup := by
  induction reqs generalizing c with
  | nil => exact h
  | cons r rest ih =>
      rw [runOpens_cons]
      cases hf : get_cached_device (fun a b => a == b) r c with
      | some d =>
          have hstep : (openDevice (fun a b => a == b) r r c).1 = c := by
            simp [openDevice, hf]
          rw [hstep]
          exact ih c h
      | none =>
          have hstep : (openDevice (fun a b => a == b) r r c).1 =
              { devs := c.devs ++ [r], physOpens := c.physOpens + 1 } := by
            simp [openDevice, hf]
          rw [hstep]
          apply ih
          show (c.devs ++ [r]).Nodup
          rw [List.nodup_append]
          refine ⟨h, List.nodup_singleton r, ?_⟩
          intro a ha hmem
          simp only [List.mem_singleton] at hmem
          subst hmem
          have hnone := List.find?_eq_none.mp hf a ha
          simp at hnone

end bladerf_common

end Osmosdr

namespace Osmosdr

namespace airspyhf_source_c

/-! ### Claim C1: dropped-sample accounting -/

/-- C1 counterexample: a callback delivery whose transfer reports 5 dropped
samples leaves `_dropped_samples` at 0 instead of increasing it by 5 — the
field is declared but never incremented anywhere in the code. -/
theorem dropped_counter_unchanged_cex :
    (rx_callback ⟨7, 5⟩ { exBase with streamBuff := some 1 }).dropped = 0 ∧
    ¬ ((rx_callback ⟨7, 5⟩ { exBase with streamBuff := some 1 }).dropped =
        ({ exBase with streamBuff := some 1 } : AirspyState).dropped + 5) := by
  decide

/-- C1 (amended): when the driver reports K > 0 dropped samples the callback
only emits a warning; the `_dropped_samples` field is never modified — it is
constant across every trace of bridge actions — and subsequent deliveries are
unaffected. -/
theorem dropped_counter_never_incremented (acts : List BridgeAct)
    (s : AirspyState) (t : Transfer) (u : AirspyState)
    (ht : t.dropped_samples ≠ 0) :
    (run acts s).dropped = s.dropped ∧
    (rx_callback t u).dropped = u.dropped ∧
    (rx_callback t u).warnings = u.warnings + 1 := by
  refine ⟨run_dropped acts s, rx_callback_dropped t u, ?_⟩
  rw [rx_callback_warnings, if_pos ht]

/-- C1 witness: the amended statement evaluated on a concrete trace and
transfer. -/
theorem dropped_counter_never_incremented_witness :
    (⟨7, 5⟩ : Transfer).dropped_samples ≠ 0 ∧
    ((run exActs exBase).dropped = exBase.dropped ∧
     (rx_callback ⟨7, 5⟩ exBase).dropped = exBase.dropped ∧
     (rx_callback ⟨7, 5⟩ exBase).warnings = exBase.warnings + 1) :=
  ⟨by decide,
   dropped_counter_never_incremented exActs exBase ⟨7, 5⟩ exBase (by decide)⟩

/-! ### Claim C2: stop() semantics -/

/-- C2 counterexample: `stop()` on a bridge whose destination slot holds a
buffer leaves the slot occupied (it never writes `_stream_buff`) and performs
no notification on either condition variable, contradicting "forcibly clears
the destination slot and wakes any blocked party". -/
theorem stop_leaves_slot_cex :
    (stop { exBase with streamBuff := some 3 }).streamBuff = some 3 ∧
    ¬ ((stop { exBase with streamBuff := some 3 }).streamBuff = none) ∧
    (stop { exBase with streamBuff := some 3 }).notifyDone =
      ({ exBase with streamBuff := some 3 } : AirspyState).notifyDone ∧
    (stop { exBase with streamBuff := some 3 }).notifyStream =
      ({ exBase with streamBuff := some 3 } : AirspyState).notifyStream := by
  decide

/-- C2 (amended): `stop()` disarms the hardware under the stream lock but
leaves `_stream_buff` untouched and signals neither condition variable; both
wait guards become false, so a waiter that does get to re-check its condition
proceeds (a subsequent `work` call reports WORK_DONE), and a second `stop`
leaves the bridge state unchanged apart from issuing the hardware stop command
again. -/
theorem stop_disarms_without_clearing (s : AirspyState) :
    (stop s).streaming = false ∧
    (stop s).streamBuff = s.streamBuff ∧
    (stop s).notifyStream = s.notifyStream ∧
    (stop s).notifyDone = s.notifyDone ∧
    (stop s).dropped = s.dropped ∧
    workWaitHolds (stop s) = false ∧
    callbackWaitHolds (stop s) = false ∧
    (∀ n b, work_enter n b (stop s) = (stop s, WorkEntry.workDone)) ∧
    stop (stop s) = { stop s with hwCalls := (stop s).hwCalls ++ [HwCall.stopCmd] } := by
  refine ⟨rfl, rfl, rfl, rfl, rfl, ?_, ?_, ?_, ?_⟩
  · simp [stop, workWaitHolds]
  · simp [stop, callbackWaitHolds]
  · intro n b; exact work_enter_not_streaming rfl n b
  · rfl

/-! ### Claim C3: single-slot handoff discipline -/

/-- C3: over every interleaving of consumer buffer offers, callback
deliveries, stops and starts, the destination slot holds at most one buffer at
any instant; every memcpy the callback performs copies exactly
`_airspyhf_output_size` samples into a buffer the consumer offered; no buffer
is written more than once (offers are distinct); and every delivery clears the
slot and wakes the waiting consumer. -/
theorem slot_handoff_discipline (acts : List BridgeAct) (s : AirspyState)
    (hw : s.writes = []) (hb : s.streamBuff = none)
    (hnd : (offers acts).Nodup) :
    (∀ pre, pre <+: acts →
        (run pre s).streamBuff = none ∨ ∃ b, (run pre s).streamBuff = some b) ∧
    (∀ w ∈ (run acts s).writes, w.2 = s.outputSize) ∧
    (∀ w ∈ (run acts s).writes, w.1 ∈ offers acts) ∧
    (∀ b, (wroteBufs (run acts s)).count b ≤ 1) ∧
    (∀ t u, (rx_callback t u).streamBuff = none ∧
        (rx_callback t u).notifyDone = u.notifyDone + 1) := by
  have hinv : slotInv ([] ++ offers acts) (run acts s) := by
    apply slotInv_run
    · refine ⟨?_, ?_, ?_, ?_⟩
      · intro w hwmem; rw [hw] at hwmem; cases hwmem
      · intro w hwmem; rw [hw] at hwmem; cases hwmem
      · unfold wroteBufs; rw [hw]; exact List.nodup_nil
      · intro b hbuf; rw [hb] at hbuf; cases hbuf
    · simpa using hnd
  rw [List.nil_append] at hinv
  obtain ⟨h1, h2, h3, h4⟩ := hinv
  refine ⟨?_, ?_, h2, ?_, ?_⟩
  · intro pre _
    cases hpre : (run pre s).streamBuff with
    | none => exact Or.inl rfl
    | some b => exact Or.inr ⟨b, rfl⟩
  · intro w hwmem
    rw [← run_outputSize acts s]
    exact h1 w hwmem
  · exact fun b => List.nodup_iff_count_le_one.mp h3 b
  · intro t u
    exact ⟨rx_callback_streamBuff t u, rx_callback_notifyDone t u⟩

/-- C3 witness: the discipline evaluated on a concrete five-action trace. -/
theorem slot_handoff_discipline_witness :
    exBase.writes = [] ∧ exBase.streamBuff = none ∧ (offers exActs).Nodup ∧
    ((∀ pre, pre <+: exActs →
        (run pre exBase).streamBuff = none ∨
          ∃ b, (run pre exBase).streamBuff = some b) ∧
     (∀ w ∈ (run exActs exBase).writes, w.2 = exBase.outputSize) ∧
     (∀ w ∈ (run exActs exBase).writes, w.1 ∈ offers exActs) ∧
     (∀ b, (wroteBufs (run exActs exBase)).count b ≤ 1) ∧
     (∀ t u, (rx_callback t u).streamBuff = none ∧
        (rx_callback t u).notifyDone = u.notifyDone + 1)) :=
  ⟨by decide, by decide, by decide,
   slot_handoff_discipline exActs exBase (by decide) (by decide) (by decide)⟩

/-! ### Claim C4: undersized requests -/

/-- C4: while streaming, a `work` call whose `noutput_items` is nonnegative
and smaller than `_airspyhf_output_size` returns 0 immediately with the state
completely unchanged: no buffer is placed in the slot, no memcpy or hardware
call happens, and the consumer does not block. -/
theorem undersized_request_noop (n : ℤ) (b : Nat) (s : AirspyState)
    (hs : s.streaming = true) (h0 : 0 ≤ n) (hn : n < (s.outputSize : ℤ))
    (hmax : (s.outputSize : ℤ) ≤ 2 ^ 32) :
    work_enter n b s = (s, WorkEntry.retryZero) := by
  unfold work_enter
  rw [hs, if_neg (by decide), Int.emod_eq_of_lt h0 (lt_of_lt_of_le hn hmax),
    if_pos hn]

/-- C4 witness: a request of 2 samples against a native block size of 4. -/
theorem undersized_request_noop_witness :
    exBase.streaming = true ∧ (0 : ℤ) ≤ 2 ∧ (2 : ℤ) < (exBase.outputSize : ℤ) ∧
    ((exBase.outputSize : ℤ) ≤ 2 ^ 32) ∧
    work_enter 2 0 exBase = (exBase, WorkEntry.retryZero) :=
  ⟨rfl, by decide, by decide, by decide,
   undersized_request_noop 2 0 exBase rfl (by decide) (by decide) (by decide)⟩

/-! ### Claim C5: stream ending while the consumer waits -/

/-- C5 counterexample: with streaming over and a buffer still parked in the
slot (the callback never filled it), the consumer's wait exits and `work`
returns `_airspyhf_output_size` = 4 — a fabricated sample count — rather than
the end-of-stream indication WORK_DONE. -/
theorem stream_end_fabricated_count_cex :
    work_resume { exBase with streaming := false, streamBuff := some 7 } =
      some 4 ∧
    ¬ (work_resume { exBase with streaming := false, streamBuff := some 7 } =
        some WORK_DONE) := by
  decide

/-- C5 (amended): if the hardware stops streaming while the consumer is
blocked in `work`, the wait guard becomes false, so the consumer (once
scheduled) stops waiting — but the unblocked call returns
`_airspyhf_output_size`, a sample count for a buffer that may never have been
filled; only the next `work` call returns the end-of-stream indication
WORK_DONE.  The callback guard also becomes false, so the callback thread
exits without blocking. -/
theorem stream_end_unblocks_with_block_count (s : AirspyState)
    (h : s.streaming = false) :
    workWaitHolds s = false ∧
    callbackWaitHolds s = false ∧
    work_resume s = some (s.outputSize : ℤ) ∧
    (∀ n b, work_enter n b s = (s, WorkEntry.workDone)) := by
  have hw : workWaitHolds s = false := by simp [workWaitHolds, h]
  refine ⟨hw, by simp [callbackWaitHolds, h], ?_,
    fun n b => work_enter_not_streaming h n b⟩
  simp [work_resume, hw]

/-- C5 witness: the amended statement on a stopped bridge with a parked
buffer. -/
theorem stream_end_unblocks_with_block_count_witness :
    ({ exBase with streaming := false, streamBuff := some 7 } : AirspyState).streaming = false ∧
    (workWaitHolds { exBase with streaming := false, streamBuff := some 7 } = false ∧
     callbackWaitHolds { exBase with streaming := false, streamBuff := some 7 } = false ∧
     work_resume { exBase with streaming := false, streamBuff := some 7 } =
       some (({ exBase with streaming := false, streamBuff := some 7 } : AirspyState).outputSize : ℤ) ∧
     (∀ n b, work_enter n b { exBase with streaming := false, streamBuff := some 7 } =
        ({ exBase with streaming := false, streamBuff := some 7 }, WorkEntry.workDone))) :=
  ⟨rfl, stream_end_unblocks_with_block_count _ rfl⟩

end airspyhf_source_c

end Osmosdr

namespace Osmosdr

namespace bladerf_common

/-! ### Claim C6: device-handle deduplication -/

/-- C6: `bladerf_common::open` deduplicates against the process-wide cache:
when the requested devinfo matches a cached live device, the existing shared
handle is returned with no physical open and no new cache entry; a fresh
physical connection (and cache entry) happens only when no cached device
matches; and under identity matching the cache never holds two entries for the
same physical unit. -/
theorem open_dedup (m : Nat → Nat → Bool) (di nid : Nat) (c : DevCache) :
    (∀ d, get_cached_device m di c = some d →
        openDevice m di nid c = (c, OpenResult.cached d)) ∧
    (get_cached_device m di c = none →
        openDevice m di nid c =
          ({ devs := c.devs ++ [nid], physOpens := c.physOpens + 1 },
           OpenResult.fresh nid)) ∧
    (∀ reqs : List Nat, c.devs.Nodup → (runOpens reqs c).devs.Nodup) := by
  refine ⟨?_, ?_, fun reqs h => runOpens_nodup reqs c h⟩
  · intro d hd
    simp [openDevice, hd]
  · intro hnone
    simp [openDevice, hnone]

/-- C6 witness: re-opening the cached unit 5 returns the cached handle with no
second physical connection, and a concrete open sequence with a duplicate
request keeps the cache duplicate-free. -/
theorem open_dedup_witness :
    get_cached_device (fun a b => a == b) 5 ⟨[5], 1⟩ = some 5 ∧
    openDevice (fun a b => a == b) 5 9 ⟨[5], 1⟩ =
      (⟨[5], 1⟩, OpenResult.cached 5) ∧
    (⟨[5], 1⟩ : DevCache).devs.Nodup ∧
    (runOpens [5, 7, 5] ⟨[5], 1⟩).devs.Nodup :=
  ⟨by decide,
   (open_dedup (fun a b => a == b) 5 9 ⟨[5], 1⟩).1 5 (by decide),
   by decide,
   (open_dedup (fun a b => a == b) 5 9 ⟨[5], 1⟩).2.2 [5, 7, 5] (by decide)⟩

/-! ### Claim C9 counterexample lives here: the cited bladeRF rate setter -/

/-- C9 counterexample: the requested rate 768000 equals the currently
programmed rational rate, yet `bladerf_common::set_sample_rate` builds and
issues the rational-rate hardware transaction unconditionally — there is no
cached-value check in any sample-rate setter. -/
theorem redundant_setter_hits_hardware_cex :
    rrValue ⟨768000, 0, 10000⟩ = (768000 : ℚ) ∧
    (set_sample_rate 768000 ⟨768000, 0, 10000⟩
        { hwRate := ⟨768000, 0, 10000⟩, rateRequests := [] }).1.rateRequests ≠
      [] := by
  constructor
  · norm_num [rrValue]
  · simp [set_sample_rate]

end bladerf_common

/-! ### Claim C7: sample-rate round trip -/

namespace airspyhf_source_c

/-- C7 counterexample: requesting 768000.5 Hz on the AirspyHF adapter
programs the hardware with the truncated 768000 but caches and returns the
raw request 768000.5; the caller re-reading `get_sample_rate` observes the raw
requested value, which differs from the programmed one. -/
theorem set_sample_rate_raw_cex :
    (set_sample_rate (1536001 / 2) true exBase).1.hwSampleRate = 768000 ∧
    (set_sample_rate (1536001 / 2) true exBase).2 = 1536001 / 2 ∧
    get_sample_rate (set_sample_rate (1536001 / 2) true exBase).1 =
      1536001 / 2 ∧
    ¬ ((set_sample_rate (1536001 / 2) true exBase).2 =
        ((set_sample_rate (1536001 / 2) true exBase).1.hwSampleRate : ℚ)) := by
  have hcast : cppToUInt32 (1536001 / 2) = 768000 := by
    norm_num [cppToUInt32]
    decide
  refine ⟨?_, ?_, ?_, ?_⟩
  · simp [set_sample_rate, hcast]
  · simp [set_sample_rate]
  · simp [set_sample_rate, get_sample_rate]
  · simp only [set_sample_rate, hcast]
    norm_num

end airspyhf_source_c

/-- C7 (amended): the bladeRF `set_sample_rate` returns the rational rate the
driver actually programmed and a subsequent `get_sample_rate` reads back that
same effective rate, stable under repeated reads; the AirspyHF
`set_sample_rate`, however, caches and returns the raw requested double (the
hardware receives the `uint32_t` truncation), so its `get_sample_rate`
re-reads the raw request, equally stable under repeated reads. -/
theorem sample_rate_effective_report (rate : ℚ)
    (actual : bladerf_common.RationalRate) (bs : bladerf_common.BladerfState)
    (s : AirspyState) :
    ((bladerf_common.set_sample_rate rate actual bs).2 =
        bladerf_common.rrValue actual) ∧
    (bladerf_common.get_sample_rate
        (bladerf_common.set_sample_rate rate actual bs).1 =
        bladerf_common.rrValue actual) ∧
    ((airspyhf_source_c.set_sample_rate rate true s).2 = rate) ∧
    ((airspyhf_source_c.set_sample_rate rate true s).1.hwSampleRate =
        airspyhf_source_c.cppToUInt32 rate) ∧
    (airspyhf_source_c.get_sample_rate
        (airspyhf_source_c.set_sample_rate rate true s).1 = rate) := by
  refine ⟨rfl, rfl, ?_, ?_, ?_⟩ <;>
    simp [airspyhf_source_c.set_sample_rate, airspyhf_source_c.get_sample_rate]

namespace airspyhf_source_c

/-! ### Claim C8: unknown gain stage -/

/-- C8 counterexample: both cited adapters violate the claim at the unknown
stage "XYZ".  AirspyHF: with the cached ATT step at 1 (an effective gain of
-6 dB), `set_gain(12, "XYZ")` returns the dummy 0.0, not the effective
(unchanged) -6.0 that `get_gain` reports.  bladeRF: the unknown-stage path
issues the driver set-stage call (the call log grows, so the handling is not
purely local) and, when the driver answers BLADERF_ERR_UNSUPPORTED, returns
the dummy 0.0 produced by its failing `get_gain`; for any other nonzero
driver status the call propagates an exception instead of returning
normally. -/
theorem unknown_gain_dummy_zero_cex :
    (set_gain 12 "XYZ" { exBase with att := 1 }).2 = 0 ∧
    (get_gain "ATT" (set_gain 12 "XYZ" { exBase with att := 1 }).1).2 = -6 ∧
    ¬ ((set_gain 12 "XYZ" { exBase with att := 1 }).2 =
        (get_gain "ATT" (set_gain 12 "XYZ" { exBase with att := 1 }).1).2) ∧
    (bladerf_common.set_gain 12 "XYZ" bladerf_common.BrfStatus.unsupported
        bladerf_common.BrfStatus.unsupported 30
        { gainCalls := [], warnings := 0 }).2 =
      bladerf_common.GainOutcome.value 0 ∧
    ¬ ((bladerf_common.set_gain 12 "XYZ" bladerf_common.BrfStatus.unsupported
        bladerf_common.BrfStatus.unsupported 30
        { gainCalls := [], warnings := 0 }).1.gainCalls = []) ∧
    (bladerf_common.set_gain 12 "XYZ" bladerf_common.BrfStatus.otherError
        bladerf_common.BrfStatus.ok 30
        { gainCalls := [], warnings := 0 }).2 =
      bladerf_common.GainOutcome.thrown := by
  refine ⟨?_, ?_, ?_, ?_, ?_, ?_⟩
  · simp only [set_gain, String.reduceEq, reduceIte]
  · simp only [set_gain, get_gain, String.reduceEq, reduceIte]
    norm_num [att_value_to_db]
  · simp only [set_gain, get_gain, String.reduceEq, reduceIte]
    norm_num [att_value_to_db]
  · simp [bladerf_common.set_gain, bladerf_common.get_gain]
  · simp [bladerf_common.set_gain, bladerf_common.get_gain]
  · simp [bladerf_common.set_gain]

/-- C8 (amended): for a stage name outside the known set the two adapters
differ, and neither hands back the effective value.  AirspyHF `set_gain`
handles it entirely locally: one warning, no hardware call, every gain field
unchanged, normal return — but the constant 0.0 is returned instead of the
effective gain.  bladeRF `set_gain` issues the driver set-stage transaction
unconditionally; when the driver reports BLADERF_ERR_UNSUPPORTED it logs a
warning and returns normally with the dummy 0.0 produced by its failing
`get_gain` (the prior gain state survives only because the driver rejected
the call), while any other nonzero driver status propagates an exception via
BLADERF_THROW_STATUS. -/
theorem unknown_gain_locally_handled (g : ℚ) (name : String) (s : AirspyState)
    (gain2 : ℚ) (name2 : String)
    (setSt getSt : bladerf_common.BrfStatus) (hwVal : ℤ)
    (bs : bladerf_common.BrfGainState)
    (h1 : name ≠ "ATT") (h2 : name ≠ "LNA") :
    set_gain g name s = ({ s with warnings := s.warnings + 1 }, 0) ∧
    (bladerf_common.set_gain gain2 name2 setSt getSt hwVal bs).1.gainCalls =
      bs.gainCalls ++
        [{ systemEntry := name2 == bladerf_common.SYSTEM_GAIN_NAME,
           stage := name2, value := bladerf_common.cppToInt gain2 }] ∧
    (setSt = bladerf_common.BrfStatus.unsupported →
        getSt ≠ bladerf_common.BrfStatus.ok →
        bladerf_common.set_gain gain2 name2 setSt getSt hwVal bs =
          ({ gainCalls := bs.gainCalls ++
                [{ systemEntry := name2 == bladerf_common.SYSTEM_GAIN_NAME,
                   stage := name2, value := bladerf_common.cppToInt gain2 }],
             warnings := bs.warnings + 2 },
           bladerf_common.GainOutcome.value 0)) ∧
    (setSt = bladerf_common.BrfStatus.otherError →
        (bladerf_common.set_gain gain2 name2 setSt getSt hwVal bs).2 =
          bladerf_common.GainOutcome.thrown) := by
  refine ⟨?_, ?_, ?_, ?_⟩
  · unfold set_gain
    rw [if_neg h1, if_neg h2]
  · cases setSt <;> cases getSt <;>
      simp [bladerf_common.set_gain, bladerf_common.get_gain]
  · intro hset hget
    subst hset
    simp [bladerf_common.set_gain, bladerf_common.get_gain, hget]
  · intro hset
    subst hset
    simp [bladerf_common.set_gain]

/-- C8 witness: the amended statement at the unknown stage "XYZ" on both
adapters, exercising the UNSUPPORTED and the throwing driver statuses. -/
theorem unknown_gain_locally_handled_witness :
    ("XYZ" : String) ≠ "ATT" ∧ ("XYZ" : String) ≠ "LNA" ∧
    bladerf_common.BrfStatus.unsupported = bladerf_common.BrfStatus.unsupported ∧
    bladerf_common.BrfStatus.unsupported ≠ bladerf_common.BrfStatus.ok ∧
    set_gain 12 "XYZ" exBase =
      ({ exBase with warnings := exBase.warnings + 1 }, 0) ∧
    bladerf_common.set_gain 12 "XYZ" bladerf_common.BrfStatus.unsupported
        bladerf_common.BrfStatus.unsupported 30
        { gainCalls := [], warnings := 0 } =
      ({ gainCalls := [] ++
            [{ systemEntry := ("XYZ" : String) == bladerf_common.SYSTEM_GAIN_NAME,
               stage := "XYZ", value := bladerf_common.cppToInt 12 }],
         warnings := 0 + 2 },
       bladerf_common.GainOutcome.value 0) ∧
    (bladerf_common.set_gain 12 "XYZ" bladerf_common.BrfStatus.otherError
        bladerf_common.BrfStatus.ok 30
        { gainCalls := [], warnings := 0 }).2 =
      bladerf_common.GainOutcome.thrown :=
  ⟨by decide, by decide, rfl, by decide,
   (unknown_gain_locally_handled 12 "XYZ" exBase 12 "XYZ"
      bladerf_common.BrfStatus.unsupported bladerf_common.BrfStatus.unsupported
      30 { gainCalls := [], warnings := 0 } (by decide) (by decide)).1,
   (unknown_gain_locally_handled 12 "XYZ" exBase 12 "XYZ"
      bladerf_common.BrfStatus.unsupported bladerf_common.BrfStatus.unsupported
      30 { gainCalls := [], warnings := 0 } (by decide) (by decide)).2.2.1
     rfl (by decide),
   (unknown_gain_locally_handled 12 "XYZ" exBase 12 "XYZ"
      bladerf_common.BrfStatus.otherError bladerf_common.BrfStatus.ok
      30 { gainCalls := [], warnings := 0 } (by decide) (by decide)).2.2.2
     rfl⟩

end airspyhf_source_c

/-! ### Claim C9: setter idempotence -/

/-- C9 (amended): the gain-path setters are idempotent no-ops on a cached
value — `set_gain` for ATT/LNA and `set_gain_mode` skip the hardware
transaction and leave the state unchanged when the converted request equals
the cached value — but the sample-rate setters of both adapters issue their
hardware transaction unconditionally, even when the requested value equals the
cached/programmed one. -/
theorem setter_idempotence_scope (g g2 : ℚ) (a : Bool) (s : AirspyState)
    (rate : ℚ) (actual : bladerf_common.RationalRate)
    (bs : bladerf_common.BladerfState)
    (hatt : airspyhf_source_c.att_db_to_value g = s.att)
    (hlna : airspyhf_source_c.lna_db_to_flag g2 = s.lna)
    (hagc : s.agc = a) :
    airspyhf_source_c.set_gain g "ATT" s =
      (s, airspyhf_source_c.att_value_to_db s.att) ∧
    airspyhf_source_c.set_gain g2 "LNA" s =
      (s, airspyhf_source_c.lna_flag_to_db s.lna) ∧
    airspyhf_source_c.set_gain_mode a s = (s, s.agc) ∧
    (airspyhf_source_c.set_sample_rate rate true s).1.hwCalls =
      s.hwCalls ++
        [HwCall.setSamplerate (airspyhf_source_c.cppToUInt32 rate)] ∧
    (bladerf_common.set_sample_rate rate actual bs).1.rateRequests =
      bs.rateRequests ++ [bladerf_common.requestRational rate] := by
  refine ⟨?_, ?_, ?_, ?_, rfl⟩
  · simp [airspyhf_source_c.set_gain, hatt]
  · simp [airspyhf_source_c.set_gain, hlna]
  · simp [airspyhf_source_c.set_gain_mode, hagc]
  · simp [airspyhf_source_c.set_sample_rate]

/-- C9 witness: the amended statement with the cached ATT step 0, LNA flag 1
and AGC on, and the rate setters at the already-programmed 768000 Hz. -/
theorem setter_idempotence_scope_witness :
    airspyhf_source_c.att_db_to_value 0 = airspyhf_source_c.exBase.att ∧
    airspyhf_source_c.lna_db_to_flag 6 = airspyhf_source_c.exBase.lna ∧
    airspyhf_source_c.exBase.agc = true ∧
    (airspyhf_source_c.set_gain 0 "ATT" airspyhf_source_c.exBase =
        (airspyhf_source_c.exBase, airspyhf_source_c.att_value_to_db airspyhf_source_c.exBase.att) ∧
     airspyhf_source_c.set_gain 6 "LNA" airspyhf_source_c.exBase =
        (airspyhf_source_c.exBase, airspyhf_source_c.lna_flag_to_db airspyhf_source_c.exBase.lna) ∧
     airspyhf_source_c.set_gain_mode true airspyhf_source_c.exBase = (airspyhf_source_c.exBase, airspyhf_source_c.exBase.agc) ∧
     (airspyhf_source_c.set_sample_rate 768000 true airspyhf_source_c.exBase).1.hwCalls =
        airspyhf_source_c.exBase.hwCalls ++
          [HwCall.setSamplerate (airspyhf_source_c.cppToUInt32 768000)] ∧
     (bladerf_common.set_sample_rate 768000 ⟨768000, 0, 10000⟩
        { hwRate := ⟨768000, 0, 10000⟩, rateRequests := [] }).1.rateRequests =
        [] ++ [bladerf_common.requestRational 768000]) :=
  ⟨airspyhf_source_c.att_db_to_value_zero, airspyhf_source_c.lna_db_to_flag_six,
   rfl,
   setter_idempotence_scope 0 6 true airspyhf_source_c.exBase 768000 ⟨768000, 0, 10000⟩
     { hwRate := ⟨768000, 0, 10000⟩, rateRequests := [] }
     airspyhf_source_c.att_db_to_value_zero airspyhf_source_c.lna_db_to_flag_six
     rfl⟩

namespace airspyhf_source_c

/-! ### Claim C10: ATT quantization -/

/-- C10 counterexample: at the requested gain +6 dB, std::round(-g/6) = -1,
which is outside the uint8_t range; the stored step wraps to 255 and
`set_gain` returns -1530.0, not -6·round(-g/6) = +6.0, so the formula does
not hold for every requested gain. -/
theorem att_formula_positive_gain_cex :
    (set_gain 6 "ATT" exBase).2 = -1530 ∧
    ¬ ((set_gain 6 "ATT" exBase).2 = -6 * (cppRound (-(6 : ℚ) / 6) : ℚ)) := by
  have h : (set_gain 6 "ATT" exBase).2 = -1530 := by
    norm_num [set_gain, att_db_to_value, att_value_to_db, cppRound, exBase]
    norm_num [Int.toNat]
  refine ⟨h, ?_⟩
  rw [h]
  norm_num [cppRound]

/-- C10 (amended): whenever the converted step round(-g/6) lies in the
uint8_t range [0, 255] — in particular on the advertised ATT range [-48, 0] —
`set_gain(g, "ATT")` returns -6·round(-g/6) dB, a following
`get_gain("ATT")` reports the same value, and every multiple of 6 dB in
[-48, 0] round-trips exactly; outside that range the uint8_t conversion wraps
(see the counterexample). -/
theorem att_gain_quantization (g : ℚ) (k : Nat) (s : AirspyState)
    (hk : cppRound (-g / 6) = (k : ℤ)) (hk255 : k ≤ 255) :
    ((set_gain g "ATT" s).2 = -6 * (cppRound (-g / 6) : ℚ)) ∧
    ((get_gain "ATT" (set_gain g "ATT" s).1).2 =
        -6 * (cppRound (-g / 6) : ℚ)) ∧
    (∀ j : Nat, j ≤ 8 →
        (set_gain (-6 * (j : ℚ)) "ATT" s).2 = -6 * (j : ℚ)) := by
  have hval : att_db_to_value g = k := att_db_to_value_of_bounds hk hk255
  have hdb : att_value_to_db k = -6 * (cppRound (-g / 6) : ℚ) := by
    rw [hk]
    unfold att_value_to_db
    push_cast
    ring
  refine ⟨?_, ?_, ?_⟩
  · rw [set_gain_att_snd, hval, hdb]
  · rw [get_gain_att_snd, set_gain_att_fst_att, hval, hdb]
  · intro j hj
    have harg : -((-6 : ℚ) * (j : ℚ)) / 6 = (j : ℚ) := by ring
    have hkj : cppRound (-(-6 * (j : ℚ)) / 6) = (j : ℤ) := by
      rw [harg, cppRound_natCast]
    have hvj : att_db_to_value (-6 * (j : ℚ)) = j :=
      att_db_to_value_of_bounds hkj (by omega)
    rw [set_gain_att_snd, hvj]
    unfold att_value_to_db
    ring

/-- C10 witness: the amended statement at g = -18 dB, whose step is 3. -/
theorem att_gain_quantization_witness :
    cppRound (-(-18 : ℚ) / 6) = ((3 : Nat) : ℤ) ∧ (3 : Nat) ≤ 255 ∧
    (((set_gain (-18) "ATT" exBase).2 =
        -6 * (cppRound (-(-18 : ℚ) / 6) : ℚ)) ∧
     ((get_gain "ATT" (set_gain (-18) "ATT" exBase).1).2 =
        -6 * (cppRound (-(-18 : ℚ) / 6) : ℚ)) ∧
     (∀ j : Nat, j ≤ 8 →
        (set_gain (-6 * (j : ℚ)) "ATT" exBase).2 = -6 * (j : ℚ))) :=
  ⟨cppRound_att_neg18, by decide,
   att_gain_quantization (-18) 3 exBase cppRound_att_neg18 (by decide)⟩

end airspyhf_source_c

end Osmosdr
